import Mathlib

/-
Verification development for the autoweave-agents integration-agent module.

The definitions below are a shallow embedding of the JavaScript sources:
  * src/agents/integration-agent/metrics-collector.js   (MetricsCollector)
  * src/agents/integration-agent/langchain-orchestrator.js (tool registry,
    conversation history, orchestrate)
  * src/agents/integration-agent/integration-agent.js   (generateAgentWorkflow,
    validateManifests)
  * src/agents/integration-agent/index.js               (createIntegrationAgent)

Stateful JavaScript code becomes explicit state passing; fallible code returns
Except; machine clocks and process durations are abstracted as explicit Nat
parameters.  JavaScript reference aliasing (the shallow spread in getMetrics)
is modelled with an explicit store indexed by addresses.
-/

/- ===== MetricsCollector (metrics-collector.js) ===== -/

/-- The `this.metrics.integrations` counter object.  `in_progress` is kept as
an Int because the source clamps it with `Math.max(0, x - 1)`. -/
structure IntegrationsCounters where
  total : Nat
  success : Nat
  failed : Nat
  in_progress : Int
  deriving DecidableEq, Repr

/-- The `this.metrics.performance` object.  `min_duration` starts at
`Infinity`, encoded as `none`.  `avg_duration` is a float derived as
`total_duration / total` and is omitted from the counter model. -/
structure Performance where
  total_duration : Nat
  min_duration : Option Nat
  max_duration : Nat
  deriving DecidableEq, Repr

/-- The collector's metrics state: counters, duration aggregates and the
error-type → count map (modelled as an association list). -/
structure Metrics where
  integrations : IntegrationsCounters
  performance : Performance
  errors : List (String × Nat)
  deriving DecidableEq, Repr

def initialMetrics : Metrics :=
  { integrations := { total := 0, success := 0, failed := 0, in_progress := 0 },
    performance := { total_duration := 0, min_duration := none, max_duration := 0 },
    errors := [] }

def minOpt (m : Option Nat) (d : Nat) : Option Nat :=
  match m with
  | none => some d
  | some x => some (min x d)

/-- `updateDurationMetrics` from metrics-collector.js. -/
def updateDurationMetrics (p : Performance) (d : Nat) : Performance :=
  { total_duration := p.total_duration + d,
    min_duration := minOpt p.min_duration d,
    max_duration := max p.max_duration d }

/-- Increment of the `errors` map: `errors.set(t, (errors.get(t) || 0) + 1)`. -/
def bumpError : List (String × Nat) → String → List (String × Nat)
  | [], t => [(t, 1)]
  | (t0, n) :: rest, t =>
    if t0 = t then (t0, n + 1) :: rest else (t0, n) :: bumpError rest t

/-- `startIntegration`: pushes the run into the in-flight set and increments
`in_progress` (the id bookkeeping is not observed by the claims). -/
def startIntegration (m : Metrics) : Metrics :=
  { m with integrations := { m.integrations with
      in_progress := m.integrations.in_progress + 1 } }

/-- `recordSuccess(duration)`. -/
def recordSuccess (m : Metrics) (d : Nat) : Metrics :=
  { m with
    integrations := { m.integrations with
      success := m.integrations.success + 1,
      total := m.integrations.total + 1,
      in_progress := max 0 (m.integrations.in_progress - 1) },
    performance := updateDurationMetrics m.performance d }

/-- `recordFailure(duration, error)`; `errType` stands for
`error.constructor.name`. -/
def recordFailure (m : Metrics) (d : Nat) (errType : String) : Metrics :=
  { m with
    integrations := { m.integrations with
      failed := m.integrations.failed + 1,
      total := m.integrations.total + 1,
      in_progress := max 0 (m.integrations.in_progress - 1) },
    performance := updateDurationMetrics m.performance d,
    errors := bumpError m.errors errType }

/-- One observable call on the collector. -/
inductive RunEvent where
  | start
  | success (d : Nat)
  | failure (d : Nat) (errType : String)
  deriving DecidableEq, Repr

def applyEvent (m : Metrics) (e : RunEvent) : Metrics :=
  match e with
  | RunEvent.start => startIntegration m
  | RunEvent.success d => recordSuccess m d
  | RunEvent.failure d t => recordFailure m d t

/-- The collector state after a sequence of calls, starting from the
constructor's zeroed metrics. -/
def runEvents (evs : List RunEvent) : Metrics :=
  evs.foldl applyEvent initialMetrics

def isStart (e : RunEvent) : Bool :=
  match e with
  | RunEvent.start => true
  | _ => false

def startCount (evs : List RunEvent) : Nat := evs.countP isStart

def completionCount (evs : List RunEvent) : Nat := evs.countP (fun e => ! isStart e)

/-- A trace is well formed when no prefix has more completed runs than started
runs — i.e. every `recordSuccess`/`recordFailure` belongs to a started run. -/
def completionsNeverExceedStarts (evs : List RunEvent) : Bool :=
  (List.range (evs.length + 1)).all fun n =>
    decide (completionCount (evs.take n) ≤ startCount (evs.take n))

/- ===== getMetrics aliasing model (metrics-collector.js, getMetrics) =====

`getMetrics` returns `{ ...this.metrics, timestamp, uptime }` — a shallow
spread.  The nested objects (`integrations`, `performance`, the maps) are
copied by reference.  The store below makes the references explicit: nested
integration-counter objects live at addresses, and both the collector and any
returned snapshot hold an address into the store. -/

structure CollectorRefState where
  store : List IntegrationsCounters
  integrationsRef : Nat
  deriving DecidableEq, Repr

def initCollectorRef : CollectorRefState :=
  { store := [{ total := 0, success := 0, failed := 0, in_progress := 0 }],
    integrationsRef := 0 }

/-- The top-level object returned by `getMetrics`: a fresh object whose
`integrations` field is the same reference as the collector's. -/
structure MetricsSnapshot where
  integrationsRef : Nat
  deriving DecidableEq, Repr

def heapRead (store : List IntegrationsCounters) (r : Nat) : IntegrationsCounters :=
  store.getD r { total := 0, success := 0, failed := 0, in_progress := 0 }

def heapWrite (store : List IntegrationsCounters) (r : Nat)
    (o : IntegrationsCounters) : List IntegrationsCounters :=
  store.set r o

/-- `getMetrics()`: the spread `{ ...this.metrics }` copies the reference to
the nested `integrations` object, it does not clone it. -/
def getMetricsRef (s : CollectorRefState) : MetricsSnapshot :=
  { integrationsRef := s.integrationsRef }

/-- `recordSuccess` acting on the store: mutates the counters object in place
through the collector's reference. -/
def recordSuccessRef (s : CollectorRefState) : CollectorRefState :=
  let o := heapRead s.store s.integrationsRef
  { store := heapWrite s.store s.integrationsRef
      { o with success := o.success + 1, total := o.total + 1,
               in_progress := max 0 (o.in_progress - 1) },
    integrationsRef := s.integrationsRef }

/-- Reading the counters through a previously returned snapshot. -/
def snapshotCounters (store : List IntegrationsCounters) (snap : MetricsSnapshot) :
    IntegrationsCounters :=
  heapRead store snap.integrationsRef

/-- Caller-side mutation `snapshot.integrations.total = v` through the
snapshot's reference. -/
def snapshotSetTotal (store : List IntegrationsCounters) (snap : MetricsSnapshot)
    (v : Nat) : List IntegrationsCounters :=
  heapWrite store snap.integrationsRef
    { heapRead store snap.integrationsRef with total := v }

/- ===== Tool registry (langchain-orchestrator.js, registerTool) ===== -/

structure ToolDescriptor where
  name : String
  description : String
  deriving DecidableEq, Repr

/-- JavaScript `Map.set` semantics on an insertion-ordered association list:
an existing key keeps its position and gets the new value, a new key is
appended. -/
def mapSet : List (String × ToolDescriptor) → String → ToolDescriptor →
    List (String × ToolDescriptor)
  | [], k, v => [(k, v)]
  | (k0, v0) :: rest, k, v =>
    if k0 = k then (k0, v) :: rest else (k0, v0) :: mapSet rest k v

/-- JavaScript `Map.get`. -/
def mapGet : List (String × ToolDescriptor) → String → Option ToolDescriptor
  | [], _ => none
  | (k0, v0) :: rest, k => if k0 = k then some v0 else mapGet rest k

/-- `registerTool(tool)`: `this.tools.set(tool.name, tool)` — unconditional. -/
def registerTool (tools : List (String × ToolDescriptor)) (t : ToolDescriptor) :
    List (String × ToolDescriptor) :=
  mapSet tools t.name t

/- ===== Conversation history (langchain-orchestrator.js) ===== -/

structure ConversationEntry where
  role : String
  content : String
  deriving DecidableEq, Repr

/-- The truncation applied after each push: `slice(-20)` (keep the most
recent 20 entries) when the length exceeds 20, identity otherwise. -/
def truncateHistory (h : List ConversationEntry) : List ConversationEntry :=
  if h.length > 20 then h.drop (h.length - 20) else h

/-- `addToHistory(userInput, result)`: push a user entry and an assistant
entry, then truncate. -/
def addToHistory (hist : List ConversationEntry) (userInput : String)
    (resultSummary : String) : List ConversationEntry :=
  truncateHistory (hist ++ [{ role := "user", content := userInput },
                            { role := "assistant", content := resultSummary }])

/-- History after a sequence of orchestrate calls (each contributing one
user input and one formatted result), from the constructor's empty history. -/
def runHistory (calls : List (String × String)) : List ConversationEntry :=
  calls.foldl (fun hist c => addToHistory hist c.1 c.2) []

/-- The untruncated log of the same calls. -/
def fullLog : List (String × String) → List ConversationEntry
  | [] => []
  | c :: cs =>
    { role := "user", content := c.1 } ::
    { role := "assistant", content := c.2 } :: fullLog cs

/- ===== validateManifests (integration-agent.js) =====

Each of the three validation commands (kubeconform, conftest, kubectl
dry-run) runs inside its own try/catch: a failing check only sets
`passed := false` and records the error message.  Everything else in the
function — creating the temporary directory, writing the manifest files,
removing the directory — runs inside the outer try whose catch rethrows.
Those effectful steps are abstracted as `Except` outcomes supplied by the
environment; errors are numbered. -/

structure CheckResult where
  passed : Bool
  errors : List Nat
  deriving DecidableEq, Repr

structure ValidationResults where
  kubeconform : CheckResult
  conftest : CheckResult
  kubectl : CheckResult
  deriving DecidableEq, Repr

/-- One guarded check: catch the command error and record it. -/
def runCheck (outcome : Except Nat Unit) : CheckResult :=
  match outcome with
  | Except.ok _ => { passed := true, errors := [] }
  | Except.error e => { passed := false, errors := [e] }

/-- `validateManifests(manifests)`.  `setup` is the mkdir/writeFile phase,
`cleanup` the `fs.rm` phase; both propagate their errors through the outer
catch, while the three check outcomes are caught individually. -/
def validateManifests (setup : Except Nat Unit)
    (kubeconform conftest kubectl : Except Nat Unit)
    (cleanup : Except Nat Unit) : Except Nat ValidationResults :=
  match setup with
  | Except.error e => Except.error e
  | Except.ok _ =>
    let results : ValidationResults :=
      { kubeconform := runCheck kubeconform,
        conftest := runCheck conftest,
        kubectl := runCheck kubectl }
    match cleanup with
    | Except.error e => Except.error e
    | Except.ok _ => Except.ok results

/- ===== generateAgentWorkflow (integration-agent.js) =====

The OpenAPI `paths` object is modelled as an ordered list of
(path, method list) pairs; `none` stands for a spec without a `paths`
property.  Step `config` contents other than the endpoint path are not
observed by the claims; the path of an api-proxy step is kept. -/

structure WorkflowStep where
  name : String
  action : String
  path : Option String
  deriving DecidableEq, Repr

/-- `endpoint.replace(/[^a-zA-Z0-9]/g, '-')`. -/
def sanitizeName (s : String) : String :=
  String.map (fun c => if c.isAlphanum then c else '-') s

/-- The api-proxy steps generated for one path's methods. -/
def methodSteps (p : String) (ms : List String) : List WorkflowStep :=
  ms.map fun m =>
    { name := "handle-" ++ m ++ "-" ++ sanitizeName p,
      action := "api-proxy", path := some p }

def endpointSteps : List (String × List String) → List WorkflowStep
  | [] => []
  | (p, ms) :: rest => methodSteps p ms ++ endpointSteps rest

/-- `generateAgentWorkflow`: when the spec has a `paths` object, push the
initialize step then endpoint steps for `endpoints.slice(0, 10)`; in every
case the monitoring step is pushed last. -/
def generateAgentWorkflow (paths : Option (List (String × List String))) :
    List WorkflowStep :=
  (match paths with
   | none => []
   | some ps =>
     { name := "initialize-api-client", action := "setup", path := none } ::
       endpointSteps (ps.take 10)) ++
  [{ name := "monitor-integration", action := "monitor", path := none }]

/- ===== createIntegrationAgent (index.js) =====

The orchestrator's `orchestrate` call either throws (the OpenAI request or
response processing failed — `orchestrate` rethrows from its catch), or
returns a response object.  Each pipeline step reads one field of that
response (`result?.spec`, `result`, `result?.manifests`) and falls back to the
direct collaborator call only when that field is falsy, via `||`.  The three
observable outcomes of one orchestrate call are therefore: threw, returned
without a usable field, or returned a usable value.  Stage payloads (specs,
models, manifests, deployments) are abstracted as Nat tokens; errors are
numbered, 1000 standing for the missing-parameter Error. -/

inductive OrchOutcome where
  | threw (e : Nat)
  | noResult
  | result (v : Nat)
  deriving DecidableEq, Repr

/-- Outcome of each of the five orchestrate calls made during one run:
`planIntegration`, then the parse, models, manifests and deploy steps. -/
structure ReasoningBehavior where
  planR : OrchOutcome
  parseR : OrchOutcome
  modelsR : OrchOutcome
  manifestsR : OrchOutcome
  deployR : OrchOutcome
  deriving DecidableEq, Repr

/-- The external collaborators invoked by the coordinator and by the
fallbacks: openAPIParser.parseSpecification, pydanticGenerator.generateModels,
integrationAgent.generateKubernetesManifests,
integrationAgent.validateManifests, gitOpsManager.deployToGitOps. -/
structure Collaborators where
  parseSpecification : Except Nat Nat
  generateModels : Nat → Except Nat Nat
  generateKubernetesManifests : Nat → Nat → Except Nat Nat
  validateManifests : Nat → Except Nat Nat
  deployToGitOps : Nat → Except Nat Nat

structure PipelineOptions where
  openapi_url : Option String
  git_repo : Option String
  deriving DecidableEq, Repr

/-- `const x = (await orchestrate(...)).result?.field || await fallback()`,
with an orchestrate throw propagating out of the enclosing try. -/
def stageValue (orch : OrchOutcome) (fallback : Except Nat Nat) : Except Nat Nat :=
  match orch with
  | OrchOutcome.threw e => Except.error e
  | OrchOutcome.result v => Except.ok v
  | OrchOutcome.noResult => fallback

/-- The success object built at the end of `createIntegrationAgent`.  Its
`orchestrationResults` property holds the three step orchestration outcomes
`{ openAPI, pydantic, manifests }`. -/
structure IntegrationResult where
  openAPISpec : Nat
  pydanticModels : Nat
  kubernetesManifests : Nat
  deploymentResult : Option Nat
  orchestrationResults : List OrchOutcome
  deriving DecidableEq, Repr

/-- The body of the try block of `createIntegrationAgent`, minus the metrics
bookkeeping: plan, then the four/five stages in order, stopping at the first
propagated error. -/
def integrationPipelineBody (opts : PipelineOptions) (r : ReasoningBehavior)
    (c : Collaborators) : Except Nat IntegrationResult :=
  match r.planR with
  | OrchOutcome.threw e => Except.error e
  | _ =>
    match stageValue r.parseR c.parseSpecification with
    | Except.error e => Except.error e
    | Except.ok spec =>
      match stageValue r.modelsR (c.generateModels spec) with
      | Except.error e => Except.error e
      | Except.ok models =>
        match stageValue r.manifestsR (c.generateKubernetesManifests spec models) with
        | Except.error e => Except.error e
        | Except.ok manifests =>
          match c.validateManifests manifests with
          | Except.error e => Except.error e
          | Except.ok _ =>
            match opts.git_repo with
            | none =>
              Except.ok { openAPISpec := spec, pydanticModels := models,
                          kubernetesManifests := manifests,
                          deploymentResult := none,
                          orchestrationResults := [r.parseR, r.modelsR, r.manifestsR] }
            | some _ =>
              match stageValue r.deployR (c.deployToGitOps manifests) with
              | Except.error e => Except.error e
              | Except.ok dep =>
                Except.ok { openAPISpec := spec, pydanticModels := models,
                            kubernetesManifests := manifests,
                            deploymentResult := some dep,
                            orchestrationResults := [r.parseR, r.modelsR, r.manifestsR] }

/-- `createIntegrationAgent(options)`: the missing-`openapi_url` check throws
before any metrics call; inside the try, `startIntegration` runs first, the
catch records the failure and rethrows, and the success path records success.
`d` abstracts the measured wall-clock duration. -/
def createIntegrationAgent (opts : PipelineOptions) (r : ReasoningBehavior)
    (c : Collaborators) (d : Nat) (m : Metrics) :
    Except Nat IntegrationResult × Metrics :=
  match opts.openapi_url with
  | none => (Except.error 1000, m)
  | some _ =>
    let m1 := startIntegration m
    match integrationPipelineBody opts r c with
    | Except.error e => (Except.error e, recordFailure m1 d "Error")
    | Except.ok res => (Except.ok res, recordSuccess m1 d)

/-- The per-stage outputs of a run: spec, models, manifests, deployment. -/
def stageOutputs (res : IntegrationResult) : Nat × Nat × Nat × Option Nat :=
  (res.openAPISpec, res.pydanticModels, res.kubernetesManifests, res.deploymentResult)

/-- Modelled from the spec: the repository has no reasoning-disabled mode, so
the spec's "run where reasoning is disabled entirely" is this reference
pipeline, which invokes each stage's external collaborator directly in the
fixed order (validate after manifests, deploy only when a repository is
given). -/
def runDirect (opts : PipelineOptions) (c : Collaborators) :
    Except Nat (Nat × Nat × Nat × Option Nat) :=
  match c.parseSpecification with
  | Except.error e => Except.error e
  | Except.ok spec =>
    match c.generateModels spec with
    | Except.error e => Except.error e
    | Except.ok models =>
      match c.generateKubernetesManifests spec models with
      | Except.error e => Except.error e
      | Except.ok manifests =>
        match c.validateManifests manifests with
        | Except.error e => Except.error e
        | Except.ok _ =>
          match opts.git_repo with
          | none => Except.ok (spec, models, manifests, none)
          | some _ =>
            match c.deployToGitOps manifests with
            | Except.error e => Except.error e
            | Except.ok dep => Except.ok (spec, models, manifests, some dep)

/-- A reasoning service that answers every orchestrate call with free-form
guidance (no usable tool result). -/
def allNoResult : ReasoningBehavior :=
  { planR := OrchOutcome.noResult, parseR := OrchOutcome.noResult,
    modelsR := OrchOutcome.noResult, manifestsR := OrchOutcome.noResult,
    deployR := OrchOutcome.noResult }

/-- A reasoning service that throws on every orchestrate call. -/
def allThrew : ReasoningBehavior :=
  { planR := OrchOutcome.threw 7, parseR := OrchOutcome.threw 7,
    modelsR := OrchOutcome.threw 7, manifestsR := OrchOutcome.threw 7,
    deployR := OrchOutcome.threw 7 }

/-- Collaborators that all succeed, with distinguishable token outputs. -/
def cAllOk : Collaborators :=
  { parseSpecification := Except.ok 1,
    generateModels := fun spec => Except.ok (spec + 1),
    generateKubernetesManifests := fun spec models => Except.ok (spec + models),
    validateManifests := fun _ => Except.ok 0,
    deployToGitOps := fun manifests => Except.ok manifests }

/-- Collaborators whose spec parser fails with error 3. -/
def cParseFails : Collaborators :=
  { cAllOk with parseSpecification := Except.error 3 }

/-- Number of entries in the result's orchestration-results collection
(0 for a failed run). -/
def orchestrationCount (x : Except Nat IntegrationResult) : Nat :=
  match x with
  | Except.ok res => res.orchestrationResults.length
  | Except.error _ => 0

/-- The deployment result carried by a run outcome. -/
def deploymentOf (x : Except Nat IntegrationResult) : Option Nat :=
  match x with
  | Except.ok res => res.deploymentResult
  | Except.error _ => none

/-- The success result of the concrete all-succeeding fallback run used below:
spec token 1, models token 2, manifests token 3, no deployment. -/
def resEx : IntegrationResult :=
  { openAPISpec := 1, pydanticModels := 2, kubernetesManifests := 3,
    deploymentResult := none,
    orchestrationResults := [OrchOutcome.noResult, OrchOutcome.noResult,
      OrchOutcome.noResult] }

/- ===== Helper lemmas ===== -/

theorem startIntegration_success (m : Metrics) :
    (startIntegration m).integrations.success = m.integrations.success := rfl

theorem startIntegration_failed (m : Metrics) :
    (startIntegration m).integrations.failed = m.integrations.failed := rfl

theorem startIntegration_total (m : Metrics) :
    (startIntegration m).integrations.total = m.integrations.total := rfl

theorem startIntegration_ip (m : Metrics) :
    (startIntegration m).integrations.in_progress
      = m.integrations.in_progress + 1 := rfl

theorem recordSuccess_success (m : Metrics) (d : Nat) :
    (recordSuccess m d).integrations.success = m.integrations.success + 1 := rfl

theorem recordSuccess_failed (m : Metrics) (d : Nat) :
    (recordSuccess m d).integrations.failed = m.integrations.failed := rfl

theorem recordSuccess_total (m : Metrics) (d : Nat) :
    (recordSuccess m d).integrations.total = m.integrations.total + 1 := rfl

theorem recordSuccess_ip (m : Metrics) (d : Nat) :
    (recordSuccess m d).integrations.in_progress
      = max 0 (m.integrations.in_progress - 1) := rfl

theorem recordFailure_success (m : Metrics) (d : Nat) (t : String) :
    (recordFailure m d t).integrations.success = m.integrations.success := rfl

theorem recordFailure_failed (m : Metrics) (d : Nat) (t : String) :
    (recordFailure m d t).integrations.failed = m.integrations.failed + 1 := rfl

theorem recordFailure_total (m : Metrics) (d : Nat) (t : String) :
    (recordFailure m d t).integrations.total = m.integrations.total + 1 := rfl

theorem recordFailure_ip (m : Metrics) (d : Nat) (t : String) :
    (recordFailure m d t).integrations.in_progress
      = max 0 (m.integrations.in_progress - 1) := rfl

/-- The success/failed/total balance is preserved by every collector call. -/
theorem counts_inv (evs : List RunEvent) :
    ∀ m : Metrics,
      m.integrations.success + m.integrations.failed = m.integrations.total →
      (evs.foldl applyEvent m).integrations.success
          + (evs.foldl applyEvent m).integrations.failed
        = (evs.foldl applyEvent m).integrations.total := by
  induction evs with
  | nil => exact fun m h => h
  | cons e rest ih =>
    intro m h
    refine ih (applyEvent m e) ?_
    cases e with
    | start =>
      simpa [applyEvent, startIntegration_success, startIntegration_failed,
        startIntegration_total] using h
    | success d =>
      simp only [applyEvent, recordSuccess_success, recordSuccess_failed,
        recordSuccess_total]
      omega
    | failure d t =>
      simp only [applyEvent, recordFailure_success, recordFailure_failed,
        recordFailure_total]
      omega

/-- `Math.max(0, x - 1)` keeps `in_progress` non-negative for any trace. -/
theorem ip_nonneg_inv (evs : List RunEvent) :
    ∀ m : Metrics, 0 ≤ m.integrations.in_progress →
      0 ≤ (evs.foldl applyEvent m).integrations.in_progress := by
  induction evs with
  | nil => exact fun m h => h
  | cons e rest ih =>
    intro m h
    refine ih (applyEvent m e) ?_
    cases e with
    | start =>
      simp only [applyEvent, startIntegration_ip]
      omega
    | success d =>
      simp only [applyEvent, recordSuccess_ip]
      exact le_max_left 0 _
    | failure d t =>
      simp only [applyEvent, recordFailure_ip]
      exact le_max_left 0 _

/-- Unpacking the boolean well-formedness check into the per-prefix bound. -/
theorem balanced_of_bool (evs : List RunEvent)
    (h : completionsNeverExceedStarts evs = true) :
    ∀ n, completionCount (evs.take n) ≤ startCount (evs.take n) := by
  intro n
  rcases le_or_lt n evs.length with hn | hn
  · have hmem : n ∈ List.range (evs.length + 1) := List.mem_range.mpr (by omega)
    exact of_decide_eq_true (List.all_eq_true.mp h n hmem)
  · have hmem : evs.length ∈ List.range (evs.length + 1) :=
      List.mem_range.mpr (by omega)
    have hfull := of_decide_eq_true (List.all_eq_true.mp h evs.length hmem)
    rw [List.take_length _] at hfull
    rwa [List.take_of_length_le hn.le]

/-- On well-formed traces `in_progress` is exactly starts − completions:
the clamp never engages, so each completed run decrements it exactly once. -/
theorem ip_eq_of_balanced (evs : List RunEvent)
    (h : ∀ n, completionCount (evs.take n) ≤ startCount (evs.take n)) :
    (runEvents evs).integrations.in_progress
      = (startCount evs : Int) - (completionCount evs : Int) := by
  induction evs using List.reverseRecOn with
  | nil => simp [runEvents, initialMetrics, startCount, completionCount]
  | append_singleton l e ih =>
    have hl : ∀ n, completionCount (l.take n) ≤ startCount (l.take n) := by
      intro n
      rcases le_or_lt n l.length with hn | hn
      · have hh := h n
        rwa [List.take_append_of_le_length hn] at hh
      · have hh := h l.length
        rw [List.take_left] at hh
        rwa [List.take_of_length_le hn.le]
    have hfull := h (l.length + 1)
    rw [List.take_of_length_le (by simp)] at hfull
    have hfold : runEvents (l ++ [e]) = applyEvent (runEvents l) e := by
      simp [runEvents, List.foldl_append]
    have hsc : startCount (l ++ [e]) = startCount l + startCount [e] :=
      List.countP_append _ _ _
    have hcc : completionCount (l ++ [e]) = completionCount l + completionCount [e] :=
      List.countP_append _ _ _
    have hih := ih hl
    rw [hsc, hcc] at hfull ⊢
    rw [hfold]
    cases e with
    | start =>
      have hip : (applyEvent (runEvents l) RunEvent.start).integrations.in_progress
          = (runEvents l).integrations.in_progress + 1 := rfl
      have h1 : startCount [RunEvent.start] = 1 := rfl
      have h2 : completionCount [RunEvent.start] = 0 := rfl
      rw [hip, hih, h1, h2]
      push_cast
      ring
    | success d =>
      have hip : (applyEvent (runEvents l) (RunEvent.success d)).integrations.in_progress
          = max 0 ((runEvents l).integrations.in_progress - 1) := rfl
      have h1 : startCount [RunEvent.success d] = 0 := rfl
      have h2 : completionCount [RunEvent.success d] = 1 := rfl
      rw [h1, h2] at hfull ⊢
      have hcast : (completionCount l : Int) + 1 ≤ (startCount l : Int) := by
        exact_mod_cast hfull
      rw [hip, hih, max_eq_right (by omega)]
      push_cast
      ring
    | failure d t =>
      have hip : (applyEvent (runEvents l) (RunEvent.failure d t)).integrations.in_progress
          = max 0 ((runEvents l).integrations.in_progress - 1) := rfl
      have h1 : startCount [RunEvent.failure d t] = 0 := rfl
      have h2 : completionCount [RunEvent.failure d t] = 1 := rfl
      rw [h1, h2] at hfull ⊢
      have hcast : (completionCount l : Int) + 1 ≤ (startCount l : Int) := by
        exact_mod_cast hfull
      rw [hip, hih, max_eq_right (by omega)]
      push_cast
      ring

theorem suffix_append_same {α : Type} {l₁ l₂ t : List α} (h : l₁ <:+ l₂) :
    l₁ ++ t <:+ l₂ ++ t := by
  obtain ⟨p, hp⟩ := h
  exact ⟨p, by rw [← hp, List.append_assoc]⟩

theorem truncateHistory_length (h : List ConversationEntry) (hle : h.length ≤ 22) :
    (truncateHistory h).length ≤ 20 := by
  unfold truncateHistory
  split
  · rw [List.length_drop]
    omega
  · omega

theorem truncateHistory_suffix (h : List ConversationEntry) :
    truncateHistory h <:+ h := by
  unfold truncateHistory
  split
  · exact List.drop_suffix _ _
  · exact List.suffix_refl _

/-- The retained history is always a bounded suffix of the untruncated log. -/
theorem runHistory_aux (calls : List (String × String)) :
    ∀ hist : List ConversationEntry, hist.length ≤ 20 →
      (calls.foldl (fun h c => addToHistory h c.1 c.2) hist).length ≤ 20
      ∧ calls.foldl (fun h c => addToHistory h c.1 c.2) hist <:+ hist ++ fullLog calls := by
  induction calls with
  | nil =>
    intro hist h
    refine ⟨h, ?_⟩
    simp only [List.foldl_nil, fullLog, List.append_nil]
    exact List.suffix_refl hist
  | cons c cs ih =>
    intro hist h
    have h1 : (addToHistory hist c.1 c.2).length ≤ 20 := by
      apply truncateHistory_length
      simp only [List.length_append, List.length_cons, List.length_nil]
      omega
    obtain ⟨hlen, hsuf⟩ := ih (addToHistory hist c.1 c.2) h1
    refine ⟨hlen, ?_⟩
    have h2 : addToHistory hist c.1 c.2 <:+
        hist ++ [{ role := "user", content := c.1 },
                 { role := "assistant", content := c.2 }] :=
      truncateHistory_suffix _
    have h3 : addToHistory hist c.1 c.2 ++ fullLog cs <:+
        (hist ++ [{ role := "user", content := c.1 },
                  { role := "assistant", content := c.2 }]) ++ fullLog cs :=
      suffix_append_same h2
    have h4 : (hist ++ [({ role := "user", content := c.1 } : ConversationEntry),
        { role := "assistant", content := c.2 }]) ++ fullLog cs
        = hist ++ fullLog (c :: cs) := by
      simp [fullLog, List.append_assoc]
    rw [h4] at h3
    exact hsuf.trans h3

/-- `Map.set` then `Map.get`: the freshly set key returns the new value, all
other keys are unaffected. -/
theorem mapGet_mapSet (tools : List (String × ToolDescriptor)) (k : String)
    (v : ToolDescriptor) (n : String) :
    mapGet (mapSet tools k v) n = if n = k then some v else mapGet tools n := by
  induction tools with
  | nil =>
    simp only [mapSet, mapGet]
    by_cases h : k = n
    · simp [h]
    · simp [h, Ne.symm h]
  | cons kv rest ih =>
    obtain ⟨k0, v0⟩ := kv
    simp only [mapSet]
    by_cases hk : k0 = k
    · subst hk
      simp only [if_pos rfl, mapGet]
      by_cases hn : k0 = n
      · subst hn
        simp
      · simp [hn, Ne.symm hn]
    · rw [if_neg hk]
      simp only [mapGet, ih]
      by_cases hn : k0 = n
      · subst hn
        have hnk : ¬(k0 = k) := hk
        simp [Ne.symm, hnk, fun hh : k0 = k => hk hh]
      · simp [hn]

/-- Every api-proxy step produced by `endpointSteps` carries one of the
listed paths. -/
theorem mem_endpointSteps {s : WorkflowStep} :
    ∀ l : List (String × List String), s ∈ endpointSteps l →
      ∃ p, p ∈ l.map Prod.fst ∧ s.path = some p := by
  intro l
  induction l with
  | nil => intro h; simp [endpointSteps] at h
  | cons pm rest ih =>
    intro h
    obtain ⟨p, ms⟩ := pm
    rw [endpointSteps] at h
    rcases List.mem_append.mp h with h1 | h2
    · refine ⟨p, by simp, ?_⟩
      simp only [methodSteps, List.mem_map] at h1
      obtain ⟨m, _, hs⟩ := h1
      rw [← hs]
    · obtain ⟨q, hq, hpath⟩ := ih h2
      exact ⟨q, by simp [List.mem_map] at hq ⊢; tauto, hpath⟩

/-- When `openapi_url` is present, the returned value of
`createIntegrationAgent` is exactly the try-block outcome. -/
theorem createAgent_fst (opts : PipelineOptions) (r : ReasoningBehavior)
    (c : Collaborators) (d : Nat) (m : Metrics) (u : String)
    (hu : opts.openapi_url = some u) :
    (createIntegrationAgent opts r c d m).1 = integrationPipelineBody opts r c := by
  simp only [createIntegrationAgent, hu]
  cases integrationPipelineBody opts r c <;> rfl

/-- When the try block ends in an error, the catch records the failure. -/
theorem createAgent_snd_error (opts : PipelineOptions) (r : ReasoningBehavior)
    (c : Collaborators) (d : Nat) (m : Metrics) (u : String) (e : Nat)
    (hu : opts.openapi_url = some u)
    (he : integrationPipelineBody opts r c = Except.error e) :
    (createIntegrationAgent opts r c d m).2
      = recordFailure (startIntegration m) d "Error" := by
  simp only [createIntegrationAgent, hu, he]

/-- With guidance-only reasoning, the try block is exactly the direct
collaborator pipeline. -/
theorem body_noResult_eq (opts : PipelineOptions) (c : Collaborators) :
    (integrationPipelineBody opts allNoResult c).map stageOutputs
      = runDirect opts c := by
  cases h1 : c.parseSpecification with
  | error e =>
    simp [integrationPipelineBody, runDirect, allNoResult, stageValue, h1, Except.map]
  | ok spec =>
    cases h2 : c.generateModels spec with
    | error e =>
      simp [integrationPipelineBody, runDirect, allNoResult, stageValue, h1, h2,
        Except.map]
    | ok models =>
      cases h3 : c.generateKubernetesManifests spec models with
      | error e =>
        simp [integrationPipelineBody, runDirect, allNoResult, stageValue, h1, h2,
          h3, Except.map]
      | ok manifests =>
        cases h4 : c.validateManifests manifests with
        | error e =>
          simp [integrationPipelineBody, runDirect, allNoResult, stageValue, h1, h2,
            h3, h4, Except.map]
        | ok x =>
          cases h5 : opts.git_repo with
          | none =>
            simp [integrationPipelineBody, runDirect, allNoResult, stageValue, h1,
              h2, h3, h4, h5, Except.map, stageOutputs]
          | some g =>
            cases h6 : c.deployToGitOps manifests with
            | error e =>
              simp [integrationPipelineBody, runDirect, allNoResult, stageValue, h1,
                h2, h3, h4, h5, h6, Except.map]
            | ok dep =>
              simp [integrationPipelineBody, runDirect, allNoResult, stageValue, h1,
                h2, h3, h4, h5, h6, Except.map, stageOutputs]

/- ===== Claim theorems ===== -/

/-- Claim C1 (corrected): the claim also covers a reasoning service that
throws, but `orchestrate` rethrows and `createIntegrationAgent` has no
per-stage catch, so a throwing service aborts the run (see the
counterexample).  The amended claim: for every run in which the reasoning
service returns an unusable answer (guidance, no usable tool result) at every
stage, the coordinator invokes each stage's collaborator directly and the run
has exactly the outcome and per-stage outputs of the direct
reasoning-disabled pipeline. -/
theorem C1_fallback_equivalence (opts : PipelineOptions) (c : Collaborators)
    (d : Nat) (m : Metrics) (h : opts.openapi_url.isSome = true) :
    (createIntegrationAgent opts allNoResult c d m).1.map stageOutputs
      = runDirect opts c := by
  obtain ⟨u, hu⟩ := Option.isSome_iff_exists.mp h
  rw [createAgent_fst opts allNoResult c d m u hu]
  exact body_noResult_eq opts c

theorem C1_witness :
    (createIntegrationAgent { openapi_url := some "u", git_repo := none }
        allNoResult cAllOk 5 initialMetrics).1.map stageOutputs
      = runDirect { openapi_url := some "u", git_repo := none } cAllOk :=
  C1_fallback_equivalence { openapi_url := some "u", git_repo := none } cAllOk 5
    initialMetrics rfl

/-- Claim C1 counterexample: with every collaborator succeeding but the
reasoning service throwing at each stage, the run does not complete — the
error propagates out of `createIntegrationAgent` instead of falling back. -/
theorem C1_counterexample :
    (createIntegrationAgent { openapi_url := some "u", git_repo := none }
        allThrew cAllOk 5 initialMetrics).1 = Except.error 7 := rfl

/-- Claim C2 (corrected): the claim says no error path returns to the caller
without a `recordFailure` call, but the missing-`openapi_url` check throws
before the try block and records nothing (see the counterexample).  The
amended claim: every fatal error raised after the parameter check (i.e. once
metrics collection has started) is recorded via `recordFailure` — the failed
counter is incremented exactly once — before the error is re-raised. -/
theorem C2_failure_recorded (opts : PipelineOptions) (r : ReasoningBehavior)
    (c : Collaborators) (d : Nat) (m : Metrics)
    (h : opts.openapi_url.isSome = true) (e : Nat)
    (he : (createIntegrationAgent opts r c d m).1 = Except.error e) :
    (createIntegrationAgent opts r c d m).2.integrations.failed
      = m.integrations.failed + 1 := by
  obtain ⟨u, hu⟩ := Option.isSome_iff_exists.mp h
  have h1 : integrationPipelineBody opts r c = Except.error e := by
    rw [← createAgent_fst opts r c d m u hu]
    exact he
  rw [createAgent_snd_error opts r c d m u e hu h1, recordFailure_failed,
    startIntegration_failed]

theorem C2_witness :
    (createIntegrationAgent { openapi_url := some "u", git_repo := none }
        allNoResult cParseFails 5 initialMetrics).2.integrations.failed
      = initialMetrics.integrations.failed + 1 :=
  C2_failure_recorded { openapi_url := some "u", git_repo := none } allNoResult
    cParseFails 5 initialMetrics rfl 3 rfl

/-- Claim C2 counterexample: a call without `openapi_url` throws and returns
to the caller with the metrics completely untouched — no `recordFailure`. -/
theorem C2_counterexample :
    (createIntegrationAgent { openapi_url := none, git_repo := none }
        allNoResult cAllOk 5 initialMetrics).1 = Except.error 1000
    ∧ (createIntegrationAgent { openapi_url := none, git_repo := none }
        allNoResult cAllOk 5 initialMetrics).2 = initialMetrics :=
  ⟨rfl, rfl⟩

/-- Claim C3 (corrected): `registerTool` never fails — there is no
`DuplicateToolError` in the code; `Map.set` silently overwrites.  The amended
claim: registering a tool always succeeds, the registered name afterwards
resolves to the new descriptor, and every other name is unaffected. -/
theorem C3_register_overwrites (tools : List (String × ToolDescriptor))
    (t : ToolDescriptor) (n : String) :
    mapGet (registerTool tools t) n
      = if n = t.name then some t else mapGet tools n :=
  mapGet_mapSet tools t.name t n

/-- Claim C3 counterexample: registering a second tool under an
already-registered name does not fail, and retrieval returns the second
descriptor — the original registration is gone. -/
theorem C3_counterexample :
    mapGet (registerTool (registerTool []
          { name := "parse_openapi_spec", description := "first" })
        { name := "parse_openapi_spec", description := "second" })
        "parse_openapi_spec"
      = some { name := "parse_openapi_spec", description := "second" }
    ∧ ({ name := "parse_openapi_spec", description := "second" } : ToolDescriptor)
        ≠ { name := "parse_openapi_spec", description := "first" } :=
  ⟨rfl, by decide⟩

/-- Claim C4 (confirmed): after any sequence of collector calls — any
interleaving of starts, successes and failures — the counters satisfy
`success + failed == total`. -/
theorem C4_success_failed_total (evs : List RunEvent) :
    (runEvents evs).integrations.success + (runEvents evs).integrations.failed
      = (runEvents evs).integrations.total :=
  counts_inv evs initialMetrics rfl

/-- Claim C5 (confirmed): `in_progress` is never negative for any call
sequence, and on well-formed traces (no prefix completes more runs than it
started) it equals starts − completions — so each completed run decrements it
exactly once and it is 0 once every started run has completed. -/
theorem C5_in_progress (evs : List RunEvent) :
    0 ≤ (runEvents evs).integrations.in_progress
    ∧ (completionsNeverExceedStarts evs = true →
        (runEvents evs).integrations.in_progress
          = (startCount evs : Int) - (completionCount evs : Int)
        ∧ (completionCount evs = startCount evs →
            (runEvents evs).integrations.in_progress = 0)) := by
  constructor
  · exact ip_nonneg_inv evs initialMetrics (le_refl 0)
  · intro hb
    have he := ip_eq_of_balanced evs (balanced_of_bool evs hb)
    refine ⟨he, fun hc => ?_⟩
    rw [he]
    omega

theorem C5_witness :
    0 ≤ (runEvents [RunEvent.start, RunEvent.success 5, RunEvent.start,
        RunEvent.failure 3 "Error"]).integrations.in_progress
    ∧ (runEvents [RunEvent.start, RunEvent.success 5, RunEvent.start,
        RunEvent.failure 3 "Error"]).integrations.in_progress = 0 := by
  have h := C5_in_progress [RunEvent.start, RunEvent.success 5, RunEvent.start,
    RunEvent.failure 3 "Error"]
  exact ⟨h.1, (h.2 (by decide)).2 (by decide)⟩

/-- Claim C6 (confirmed): after any number of orchestrate calls the retained
conversation history has at most 20 entries and is a suffix of the full
untruncated log — the oldest entries are dropped first. -/
theorem C6_history_bounded (calls : List (String × String)) :
    (runHistory calls).length ≤ 20 ∧ runHistory calls <:+ fullLog calls := by
  have h := runHistory_aux calls [] (by simp)
  simpa [runHistory] using h

/-- Claim C7 (corrected): the claim's "stageResults has exactly 4 entries"
does not match the code — the returned result has no stageResults field; its
orchestration-results collection has exactly 3 entries (parse, models,
manifests; the validation outcome is discarded).  The amended claim: for
every run invoked without git_repo that returns successfully, the deploy
stage is skipped (`deploymentResult` is none) and the result carries exactly
3 orchestration entries. -/
theorem C7_deploy_skipped (opts : PipelineOptions) (r : ReasoningBehavior)
    (c : Collaborators) (d : Nat) (m : Metrics) (h : opts.git_repo = none)
    (res : IntegrationResult)
    (hr : (createIntegrationAgent opts r c d m).1 = Except.ok res) :
    res.deploymentResult = none ∧ res.orchestrationResults.length = 3 := by
  cases hu : opts.openapi_url with
  | none =>
    rw [show (createIntegrationAgent opts r c d m).1 = Except.error 1000 by
      simp [createIntegrationAgent, hu]] at hr
    exact absurd hr (by simp)
  | some u =>
    rw [createAgent_fst opts r c d m u hu] at hr
    unfold integrationPipelineBody at hr
    rw [h] at hr
    repeat' split at hr
    all_goals try simp_all
    all_goals (rw [← hr]; exact ⟨rfl, rfl⟩)

theorem C7_witness :
    resEx.deploymentResult = none ∧ resEx.orchestrationResults.length = 3 :=
  C7_deploy_skipped { openapi_url := some "u", git_repo := none } allNoResult
    cAllOk 5 initialMetrics rfl resEx rfl

/-- Claim C7 counterexample: a concrete successful run without a deployment
target yields 3 orchestration entries, not 4 (and indeed no deployment). -/
theorem C7_counterexample :
    orchestrationCount (createIntegrationAgent
        { openapi_url := some "u", git_repo := none } allNoResult cAllOk 5
        initialMetrics).1 = 3
    ∧ orchestrationCount (createIntegrationAgent
        { openapi_url := some "u", git_repo := none } allNoResult cAllOk 5
        initialMetrics).1 ≠ 4
    ∧ deploymentOf (createIntegrationAgent
        { openapi_url := some "u", git_repo := none } allNoResult cAllOk 5
        initialMetrics).1 = none :=
  ⟨rfl, by decide, rfl⟩

/-- Claim C8 (corrected): validation is not totally exception-free — if the
temporary-directory setup (or cleanup) fails, the outer catch rethrows (see
the counterexample).  The amended claim: provided the manifest-file setup and
cleanup succeed, `validateManifests` never throws: each check failure is
caught individually and reported as a structured per-check pass/fail
result. -/
theorem C8_validate_structured (k c u : Except Nat Unit) :
    validateManifests (Except.ok ()) k c u (Except.ok ())
      = Except.ok { kubeconform := runCheck k, conftest := runCheck c,
                    kubectl := runCheck u } := rfl

/-- Claim C8 counterexample: when creating the temporary manifest directory
fails, `validateManifests` propagates the error instead of returning a
structured result. -/
theorem C8_counterexample :
    validateManifests (Except.error 7) (Except.ok ()) (Except.ok ())
        (Except.ok ()) (Except.ok ()) = Except.error 7 := rfl

/-- Claim C9 (corrected): `getMetrics` returns `{ ...this.metrics }`, a
shallow copy — the snapshot's nested counter object is the very object the
collector keeps mutating, so the snapshot is not immutable (see the
counterexample).  The amended claim: the snapshot returned by `getMetrics` is
a fresh top-level object whose nested counters are shared by reference with
the collector, so a later `recordSuccess` is visible through any previously
returned snapshot. -/
theorem C9_shared_reference (s : CollectorRefState) :
    (getMetricsRef s).integrationsRef = s.integrationsRef
    ∧ snapshotCounters (recordSuccessRef s).store (getMetricsRef s)
        = heapRead (recordSuccessRef s).store s.integrationsRef :=
  ⟨rfl, rfl⟩

/-- Claim C9 counterexample: a snapshot taken before `recordSuccess` observes
the update (success 0 → 1), and writing `total := 99` through the snapshot
changes the collector's own counters (total 0 → 99). -/
theorem C9_counterexample :
    (snapshotCounters initCollectorRef.store (getMetricsRef initCollectorRef)).success = 0
    ∧ (snapshotCounters (recordSuccessRef initCollectorRef).store
        (getMetricsRef initCollectorRef)).success = 1
    ∧ (heapRead initCollectorRef.store initCollectorRef.integrationsRef).total = 0
    ∧ (heapRead (snapshotSetTotal initCollectorRef.store
          (getMetricsRef initCollectorRef) 99)
        initCollectorRef.integrationsRef).total = 99 :=
  ⟨rfl, rfl, rfl, rfl⟩

/-- Claim C10 (confirmed): every endpoint-handling (api-proxy) step of the
generated workflow carries one of the first 10 paths — later paths produce no
steps — and for any paths object (or none) the final step is always the
monitoring step. -/
theorem C10_workflow_steps :
    (∀ (ps : List (String × List String)) (s : WorkflowStep),
        s ∈ generateAgentWorkflow (some ps) → s.action = "api-proxy" →
        ∃ p, p ∈ (ps.take 10).map Prod.fst ∧ s.path = some p)
    ∧ (∀ po : Option (List (String × List String)),
        (generateAgentWorkflow po).getLast?
          = some { name := "monitor-integration", action := "monitor",
                   path := none }) := by
  constructor
  · intro ps s hs hact
    rw [generateAgentWorkflow] at hs
    rcases List.mem_append.mp hs with h1 | h2
    · rcases List.mem_cons.mp h1 with h3 | h4
      · rw [h3] at hact
        simp at hact
      · exact mem_endpointSteps (ps.take 10) h4
    · rw [List.mem_singleton.mp h2] at hact
      simp at hact
  · intro po
    cases po <;> exact List.getLast?_concat _

theorem C10_witness :
    ∃ p, p ∈ (([("/a", ["get"])].take 10).map Prod.fst)
      ∧ ({ name := "handle-" ++ "get" ++ "-" ++ sanitizeName "/a",
           action := "api-proxy",
           path := some "/a" } : WorkflowStep).path = some p :=
  C10_workflow_steps.1 [("/a", ["get"])]
    { name := "handle-" ++ "get" ++ "-" ++ sanitizeName "/a",
      action := "api-proxy", path := some "/a" }
    (by simp [generateAgentWorkflow, endpointSteps, methodSteps]) rfl
